import Mathlib

/-!
# Verification of the TypeScript API client (`typescript-api-standard/ApiClient.ts`)

A shallow embedding of the HTTP client core: the backoff calculator, the
TTL cache, the error taxonomy, the single-attempt request executor, the
retry orchestrator, and the facade-level `request` flow (cache check,
deduplication, pending-request bookkeeping).

Conventions of the embedding:
* JavaScript millisecond timestamps (`Date.now()`) are integers `ℤ`.
* JavaScript numbers used by `calculateBackoff` are rationals `ℚ`; the
  nondeterministic `Math.random()` draw is an explicit parameter.
* A JavaScript value that may be `null` is an `Option α` (`none` = `null`).
* The `Map` objects backing the cache and the pending-request registry are
  functions `String → Option _`.
* A settled promise is either a returned envelope or an escaped rejection
  (`CallOutcome.fault`).
-/

/-- The plain error object produced by `ApiClientError.toApiError`
(fields `code`, `message`, `retryable`; the timestamp and request id
carry no logic and are omitted). -/
structure ApiError where
  code : String
  message : String
  retryable : Bool
deriving DecidableEq, Repr

/-- The `ApiClientError` class: `code`, `message`, HTTP `status`, and the
`retryable` classification flag. -/
structure ApiClientError where
  code : String
  message : String
  status : ℕ
  retryable : Bool
deriving DecidableEq, Repr

/-- `ApiClientError.toApiError`: projection to the plain error object. -/
def ApiClientError.toApiError (e : ApiClientError) : ApiError :=
  { code := e.code, message := e.message, retryable := e.retryable }

/-- The error thrown by the cancellation check in `executeWithRetry`:
`new ApiClientError('Request cancelled', 'CANCELLED', 0, false, …)`. -/
def cancelledError : ApiClientError :=
  { code := "CANCELLED", message := "Request cancelled", status := 0, retryable := false }

/-- `new ClientError(message, status)`: code `CLIENT_ERROR_<status>`,
`retryable = false`. -/
def ClientError.mk (message : String) (status : ℕ) : ApiClientError :=
  { code := "CLIENT_ERROR_" ++ toString status, message := message,
    status := status, retryable := false }

/-- `new ServerError(message, status)`: code `SERVER_ERROR_<status>`,
`retryable = true`. -/
def ServerError.mk (message : String) (status : ℕ) : ApiClientError :=
  { code := "SERVER_ERROR_" ++ toString status, message := message,
    status := status, retryable := true }

/-- `new NetworkError(message)`: code `NETWORK_ERROR`, status 0,
`retryable = true`. -/
def NetworkError.mk (message : String) : ApiClientError :=
  { code := "NETWORK_ERROR", message := message, status := 0, retryable := true }

/-- Response headers, modelled as an association list. `new Headers()`
is the empty list. -/
abbrev HeadersModel := List (String × String)

/-- The `ApiResponse<T>` discriminated union:
`{success:true, data, status, headers}` or `{success:false, error, status}`. -/
inductive ApiResponse (T : Type) where
  | ok (data : T) (status : ℕ) (headers : HeadersModel)
  | fail (error : ApiError) (status : ℕ)
deriving DecidableEq, Repr

/-- How one call settles from the caller's point of view: a returned
envelope, or a rejection that escapes the call (an unhandled fault). -/
inductive CallOutcome (T : Type) where
  | envelope (r : ApiResponse T)
  | fault
deriving DecidableEq, Repr

/-- The result of one `executeRequest` attempt: a success envelope or a
thrown classified error. -/
inductive AttemptOutcome (T : Type) where
  | ok (data : T) (status : ℕ) (headers : HeadersModel)
  | err (e : ApiClientError)
deriving DecidableEq, Repr

/-! ## Backoff calculator (`calculateBackoff`, ApiClient.ts lines 286-290) -/

/-- `calculateBackoff(attempt, baseDelay)` with the `Math.random()` draw
made explicit:
`exponentialDelay = baseDelay * 2^attempt`,
`jitter = rand * 0.3 * exponentialDelay`,
result `min(exponentialDelay + jitter, 30000)`. -/
def calculateBackoff (attempt : ℕ) (baseDelay rand : ℚ) : ℚ :=
  min (baseDelay * 2 ^ attempt + rand * (3 / 10) * (baseDelay * 2 ^ attempt)) 30000

/-! ## Cache store (`RequestCache`, ApiClient.ts lines 323-353) -/

/-- One entry of the `RequestCache` map: `{ data, expiry }`. -/
structure CacheEntry (V : Type) where
  data : V
  expiry : ℤ
deriving DecidableEq, Repr

/-- The backing `Map<string, {data, expiry}>`. -/
abbrev CacheMap (V : Type) := String → Option (CacheEntry V)

namespace RequestCache

/-- `RequestCache.set(key, data, ttl)` at current time `now`:
stores `{ data, expiry: Date.now() + ttl }`, overwriting any entry. -/
def set {V : Type} (c : CacheMap V) (now : ℤ) (key : String) (data : V)
    (ttl : ℤ) : CacheMap V :=
  fun k => if k = key then some { data := data, expiry := now + ttl } else c k

/-- `RequestCache.get(key)` at current time `now`: returns the possibly
updated map (the entry is deleted when expired) and the returned value
(`none` models the `null` returned on a miss or on expiry). -/
def get {V : Type} (c : CacheMap V) (now : ℤ) (key : String) :
    CacheMap V × Option V :=
  match c key with
  | none => (c, none)
  | some entry =>
      if now > entry.expiry then
        (fun k => if k = key then none else c k, none)
      else
        (c, some entry.data)

end RequestCache

/-! ## Request executor (`executeRequest`, ApiClient.ts lines 608-716)

A single attempt, abstracted over the received response. Connection-level
failures, timeouts and aborts are other `throw` paths of the same method;
for the status-classification logic only the received-response path
matters, so the model takes a response as input. -/

/-- A received `Response`, as far as `executeRequest` inspects it:
`status`, `statusText`, the message extracted by `safeParseJson` from an
error body (`none` when unparseable), the value produced by a first
`response.json()` read of the body (`none` when that parse throws), and
`headers`. A `Response` body can be read at most once: on every
`!response.ok` path `safeParseJson` performs that read, after which any
further `response.json()` call rejects, so `parsedBody` only ever
matters on the ok path. -/
structure MockResponse (T : Type) where
  status : ℕ
  statusText : String
  bodyMessage : Option String
  parsedBody : Option T
  headers : HeadersModel
deriving DecidableEq, Repr

/-- `response.ok` per the Fetch standard: status in the range 200-299. -/
def responseOk (status : ℕ) : Prop := 200 ≤ status ∧ status ≤ 299

instance (status : ℕ) : Decidable (responseOk status) := by
  unfold responseOk; infer_instance

/-- `errorBody?.message ?? response.statusText ?? 'Request failed'`. -/
def errMessage {T : Type} (resp : MockResponse T) : String :=
  resp.bodyMessage.getD resp.statusText

/-- `ApiClient.executeRequest` applied to a received response: inside
the `!response.ok` block, `safeParseJson` reads (and thereby consumes)
the body, then statuses 400-499 throw a `ClientError` and statuses
≥ 500 throw a `ServerError`; a not-ok status in neither range falls
through to `response.json()`, which always rejects because the body was
already consumed — the rejection is caught and rethrown as a retryable
`NetworkError`. On the ok path, `response.json()` is the first body
read: its success yields the success envelope with the response's own
status and headers, and its failure is likewise caught as a
`NetworkError`. -/
def executeRequest {T : Type} (resp : MockResponse T) : AttemptOutcome T :=
  if ¬ responseOk resp.status then
    if 400 ≤ resp.status ∧ resp.status < 500 then
      .err (ClientError.mk (errMessage resp) resp.status)
    else if 500 ≤ resp.status then
      .err (ServerError.mk (errMessage resp) resp.status)
    else
      .err (NetworkError.mk "Body has already been consumed")
  else
    match resp.parsedBody with
    | some d => .ok d resp.status resp.headers
    | none => .err (NetworkError.mk "Unexpected token in JSON")

/-! ## Retry orchestrator (`executeWithRetry`, ApiClient.ts lines 528-603)

The loop `for (attempt = 0; attempt <= maxRetries; attempt++)`, abstracted
over an attempt oracle `att : ℕ → AttemptOutcome T` (what the `attempt`-th
`executeRequest` call produces), the cancellation-signal state
`ab : ℕ → Bool` (whether `options.signal.aborted` holds when iteration
`attempt` begins), and whether the configured `onError` interceptor
itself rejects (`onErrorThrows`). -/

/-- Observable trace of one `executeWithRetry` run: the settled outcome,
the number of `executeRequest` network attempts actually made, the number
of backoff sleeps performed, and the list of errors passed to the
`onError` interceptor (in order). -/
structure RetryTrace (T : Type) where
  result : CallOutcome T
  networkAttempts : ℕ
  sleepCount : ℕ
  onErrorCalls : List ApiError
deriving DecidableEq, Repr

/-- The tail of the loop after it breaks with `lastError = e`: failure
metrics, `await onError(lastError.toApiError(), …)` — which has no
try/catch around it, so its rejection escapes the method — then the
failure envelope `{success:false, error, status}`. `attempts` counts the
network attempts of the breaking iteration (0 when the cancellation check
threw, 1 when `executeRequest` was called). -/
def exhaustTrace {T : Type} (e : ApiClientError) (onErrorThrows : Bool)
    (attempts : ℕ) : RetryTrace T :=
  { result := if onErrorThrows then .fault else .envelope (.fail e.toApiError e.status),
    networkAttempts := attempts,
    sleepCount := 0,
    onErrorCalls := [e.toApiError] }

/-- The loop body of `executeWithRetry`, starting at iteration `idx` with
`remaining` retries still allowed (`remaining = maxRetries - idx`). Each
iteration: if the signal is already aborted, the thrown `CANCELLED` error
is caught, is not retryable, and the loop breaks; otherwise one
`executeRequest` attempt runs — success returns its envelope, a thrown
error retries (after a backoff sleep) only when it is retryable and
retries remain, else the loop breaks. -/
def runRetry {T : Type} (att : ℕ → AttemptOutcome T) (ab : ℕ → Bool)
    (onErrorThrows : Bool) : ℕ → ℕ → RetryTrace T
  | idx, remaining =>
    if ab idx then
      exhaustTrace cancelledError onErrorThrows 0
    else
      match att idx, remaining with
      | .ok d s h, _ =>
          { result := .envelope (.ok d s h), networkAttempts := 1,
            sleepCount := 0, onErrorCalls := [] }
      | .err e, 0 => exhaustTrace e onErrorThrows 1
      | .err e, r + 1 =>
          if e.retryable then
            let tail := runRetry att ab onErrorThrows (idx + 1) r
            { result := tail.result, networkAttempts := tail.networkAttempts + 1,
              sleepCount := tail.sleepCount + 1, onErrorCalls := tail.onErrorCalls }
          else
            exhaustTrace e onErrorThrows 1

/-- `ApiClient.executeWithRetry` with `maxRetries` retries: the loop from
iteration 0 with the full retry budget. -/
def executeWithRetry {T : Type} (maxRetries : ℕ) (att : ℕ → AttemptOutcome T)
    (ab : ℕ → Bool) (onErrorThrows : Bool) : RetryTrace T :=
  runRetry att ab onErrorThrows 0 maxRetries

/-! ## Client facade (`ApiClient.request`, ApiClient.ts lines 446-523)

The GET path: cache check, request deduplication, pending-request
registration, settlement (caching of successful results), and the
`finally` block that unconditionally removes the pending entry. Values
are `Option α` so that a cached JSON `null` payload (`none`) is
representable. -/

/-- The two pieces of process-wide mutable state held by `ApiClient`,
plus the cache hit/miss counters emitted to the metrics sink. A pending
entry stores the outcome its in-flight promise will settle to. -/
structure ClientState (α : Type) where
  cache : CacheMap (Option α)
  pending : String → Option (CallOutcome (Option α))
  cacheHits : ℕ
  cacheMisses : ℕ

/-- The part of `request` after the cache check: deduplication, pending
registration, awaiting the retry promise (settling to
`networkOutcome`), caching a successful GET result when caching is
enabled, and the `finally` block deleting the pending entry — which runs
whether the promise returned an envelope or rejected. -/
def requestGETNetwork {α : Type} (st : ClientState α) (settleNow : ℤ)
    (cacheKey : String) (cacheEnabled : Bool) (ttl : ℤ)
    (networkOutcome : CallOutcome (Option α)) :
    ClientState α × CallOutcome (Option α) :=
  match st.pending cacheKey with
  | some existing => (st, existing)
  | none =>
      let stReg : ClientState α :=
        { st with pending := fun k =>
            if k = cacheKey then some networkOutcome else st.pending k }
      let stCached : ClientState α :=
        match networkOutcome with
        | .envelope (.ok d _ _) =>
            if cacheEnabled then
              { stReg with cache := RequestCache.set stReg.cache settleNow cacheKey d ttl }
            else stReg
        | _ => stReg
      let stFinal : ClientState α :=
        { stCached with pending := fun k =>
            if k = cacheKey then none else stCached.pending k }
      (stFinal, networkOutcome)

/-- `ApiClient.request` for a GET call with cache directive
`{enabled := cacheEnabled, ttl}` and computed key `cacheKey`. `now` is
`Date.now()` when the call begins, `settleNow` when it settles. When the
cache is enabled, `this.cache.get(cacheKey)` is consulted; the check
`cached !== null` treats a stored `null` payload exactly like a miss. A
hit returns the synthesized envelope
`{success:true, data:cached, status:200, headers:new Headers()}`. -/
def requestGET {α : Type} (st : ClientState α) (now settleNow : ℤ)
    (cacheKey : String) (cacheEnabled : Bool) (ttl : ℤ)
    (networkOutcome : CallOutcome (Option α)) :
    ClientState α × CallOutcome (Option α) :=
  if cacheEnabled then
    let looked := RequestCache.get st.cache now cacheKey
    match looked.2.join with
    | some v =>
        ({ st with cache := looked.1, cacheHits := st.cacheHits + 1 },
         .envelope (.ok (some v) 200 []))
    | none =>
        requestGETNetwork
          { st with cache := looked.1, cacheMisses := st.cacheMisses + 1 }
          settleNow cacheKey cacheEnabled ttl networkOutcome
  else
    requestGETNetwork st settleNow cacheKey cacheEnabled ttl networkOutcome

/-! ## Theorems -/

/-- C2 counterexample: at attempt 5 with base delay 1000 and jitter draw 0
(an admissible draw, since 0 lies in the interval from 0 to
0.3 * 1000 * 2^5), the code returns the 30000 ms cap, which is strictly
below the claimed lower bound 1000 * 2^5 = 32000. -/
theorem calculateBackoff_lower_bound_fails_at_cap :
    calculateBackoff 5 1000 0 = 30000 ∧
    ¬ ((1000 : ℚ) * 2 ^ 5 ≤ calculateBackoff 5 1000 0) := by
  constructor
  · norm_num [calculateBackoff]
  · norm_num [calculateBackoff]

/-- C2 (amended): for every attempt index n, base delay b > 0 and random
draw in the unit interval (so the jitter lies in
the interval from 0 to 0.3 * b * 2^n), the returned delay satisfies
min(b * 2^n, 30000) ≤ calculateBackoff(n, b) ≤ min(1.3 * b * 2^n, 30000);
the claimed uncapped lower bound b * 2^n holds only below the cap. -/
theorem calculateBackoff_bounds (n : ℕ) (b rand : ℚ) (hb : 0 < b)
    (h0 : 0 ≤ rand) (h1 : rand ≤ 1) :
    min (b * 2 ^ n) 30000 ≤ calculateBackoff n b rand ∧
    calculateBackoff n b rand ≤ min (13 / 10 * (b * 2 ^ n)) 30000 := by
  have hexp : (0 : ℚ) < b * 2 ^ n := by positivity
  have hj0 : 0 ≤ rand * (3 / 10) * (b * 2 ^ n) :=
    mul_nonneg (mul_nonneg h0 (by norm_num)) hexp.le
  have hj1 : rand * (3 / 10) * (b * 2 ^ n) ≤ (3 / 10) * (b * 2 ^ n) := by
    nlinarith
  unfold calculateBackoff
  constructor
  · exact min_le_min (by linarith) le_rfl
  · exact min_le_min (by linarith) le_rfl

/-- C2 witness: concrete instance of the bounds at n = 0, b = 100,
rand = 1. -/
theorem calculateBackoff_bounds_witness :
    min ((100 : ℚ) * 2 ^ 0) 30000 ≤ calculateBackoff 0 100 1 ∧
    calculateBackoff 0 100 1 ≤ min (13 / 10 * ((100 : ℚ) * 2 ^ 0)) 30000 :=
  calculateBackoff_bounds 0 100 1 (by norm_num) (by norm_num) (by norm_num)

/-- C6: setting a key and reading it back at the same instant returns the
stored value (for every positive ttl), and any read at a time strictly
greater than the stored expiry instant deletes the entry and returns the
absent result — an entry is never returned strictly past its TTL. -/
theorem cache_set_get_ttl {V : Type} (c : CacheMap V) (k : String) (v : V)
    (ttl t tLater : ℤ) (httl : 0 < ttl) (hlater : t + ttl < tLater) :
    (RequestCache.get (RequestCache.set c t k v ttl) t k).2 = some v ∧
    (RequestCache.get (RequestCache.set c t k v ttl) tLater k).2 = none ∧
    ((RequestCache.get (RequestCache.set c t k v ttl) tLater k).1) k = none := by
  have hk : RequestCache.set c t k v ttl k = some { data := v, expiry := t + ttl } := by
    unfold RequestCache.set
    simp
  refine ⟨?_, ?_, ?_⟩
  · unfold RequestCache.get
    rw [hk]
    simp only
    rw [if_neg (by omega)]
  · unfold RequestCache.get
    rw [hk]
    simp only
    rw [if_pos (by omega)]
  · unfold RequestCache.get
    rw [hk]
    simp only
    rw [if_pos (by omega)]
    simp

/-- C6 witness: concrete round-trip over an initially empty cache with
key "k", value 7, ttl 10, written at time 0 and re-read at time 11. -/
theorem cache_set_get_ttl_witness :
    (RequestCache.get (RequestCache.set (fun _ => (none : Option (CacheEntry ℕ))) 0 "k" 7 10) 0 "k").2 = some 7 ∧
    (RequestCache.get (RequestCache.set (fun _ => (none : Option (CacheEntry ℕ))) 0 "k" 7 10) 11 "k").2 = none ∧
    ((RequestCache.get (RequestCache.set (fun _ => (none : Option (CacheEntry ℕ))) 0 "k" 7 10) 11 "k").1) "k" = none :=
  cache_set_get_ttl (fun _ => none) "k" 7 10 0 11 (by norm_num) (by norm_num)

/-- A concrete not-ok redirect-range response: status 300, whose body
happens to be valid JSON — irrelevant on this path, since the error-path
body read has already consumed it. -/
def redirectResponse : MockResponse ℕ :=
  { status := 300, statusText := "Multiple Choices", bodyMessage := none,
    parsedBody := some 0, headers := [] }

/-- C1: statuses 400-499 raise a client error with retryable = false;
statuses ≥ 500 (in particular 500-599) raise a server error with
retryable = true; and every status outside the 200-299 success range
raises some classified error and never produces a success envelope — a
not-ok status in neither range (informational/redirect) also raises,
because the error-path `safeParseJson` has consumed the body, so the
success-path `response.json()` rejects and a `NetworkError` is thrown. -/
theorem executeRequest_status_classification {T : Type} (resp : MockResponse T) :
    (400 ≤ resp.status ∧ resp.status < 500 →
      executeRequest resp = .err (ClientError.mk (errMessage resp) resp.status) ∧
      (ClientError.mk (errMessage resp) resp.status).retryable = false) ∧
    (500 ≤ resp.status →
      executeRequest resp = .err (ServerError.mk (errMessage resp) resp.status) ∧
      (ServerError.mk (errMessage resp) resp.status).retryable = true) ∧
    (¬ responseOk resp.status →
      (∃ e, executeRequest resp = .err e) ∧
      ∀ d s h, executeRequest resp ≠ .ok d s h) := by
  refine ⟨?_, ?_, ?_⟩
  · intro hs
    unfold executeRequest
    rw [if_pos (by simp [responseOk]; omega), if_pos hs]
    exact ⟨rfl, rfl⟩
  · intro hs
    unfold executeRequest
    rw [if_pos (by simp [responseOk]; omega), if_neg (by omega), if_pos hs]
    exact ⟨rfl, rfl⟩
  · intro hok
    unfold executeRequest
    rw [if_pos hok]
    by_cases h4 : 400 ≤ resp.status ∧ resp.status < 500
    · rw [if_pos h4]
      exact ⟨⟨_, rfl⟩, fun d s h => by simp⟩
    · rw [if_neg h4]
      by_cases h5 : 500 ≤ resp.status
      · rw [if_pos h5]
        exact ⟨⟨_, rfl⟩, fun d s h => by simp⟩
      · rw [if_neg h5]
        exact ⟨⟨_, rfl⟩, fun d s h => by simp⟩

/-- A concrete 404 response with a parseable error body. -/
def notFoundResponse : MockResponse ℕ :=
  { status := 404, statusText := "Error", bodyMessage := some "User not found",
    parsedBody := none, headers := [] }

/-- A concrete 503 response with an unparseable body. -/
def unavailableResponse : MockResponse ℕ :=
  { status := 503, statusText := "Error", bodyMessage := none,
    parsedBody := none, headers := [] }

/-- C1 witness: the classification evaluated at three concrete
responses — 404 raises the client error, 503 raises the server error,
and the not-ok 300 response is not a success envelope. -/
theorem executeRequest_status_classification_witness :
    executeRequest notFoundResponse = .err (ClientError.mk "User not found" 404) ∧
    executeRequest unavailableResponse = .err (ServerError.mk "Error" 503) ∧
    executeRequest redirectResponse ≠ .ok 0 300 [] :=
  ⟨((executeRequest_status_classification notFoundResponse).1 (by norm_num [notFoundResponse])).1,
   ((executeRequest_status_classification unavailableResponse).2.1 (by norm_num [unavailableResponse])).1,
   ((executeRequest_status_classification redirectResponse).2.2 (by decide)).2 0 300 []⟩

/-- Helper: when every attempt throws a retryable error and the signal is
never aborted, the loop starting at `idx` with `rem` retries left makes
`rem + 1` attempts, sleeps `rem` times, and exhausts with the error of
its last iteration `idx + rem`. -/
theorem runRetry_allFail {T : Type} (att : ℕ → AttemptOutcome T)
    (e : ℕ → ApiClientError) (hatt : ∀ i, att i = .err (e i))
    (hret : ∀ i, (e i).retryable = true) :
    ∀ rem idx, runRetry att (fun _ => false) false idx rem =
      { result := .envelope (.fail (e (idx + rem)).toApiError (e (idx + rem)).status),
        networkAttempts := rem + 1, sleepCount := rem,
        onErrorCalls := [(e (idx + rem)).toApiError] } := by
  intro rem
  induction rem with
  | zero =>
      intro idx
      rw [runRetry.eq_def]
      simp [hatt idx, exhaustTrace]
  | succ r ih =>
      intro idx
      have harith : idx + 1 + r = idx + (r + 1) := by omega
      rw [runRetry.eq_def]
      simp [hatt idx, hret idx, ih (idx + 1), harith, exhaustTrace]

/-- C4: with `maxRetries = r`, a signal that never fires, a benign error
interceptor, and every attempt failing with a retryable error, the
orchestrator makes exactly `r + 1` network attempts and returns the
failure envelope carrying the last attempt's error and its status. -/
theorem executeWithRetry_exhaustion {T : Type} (r : ℕ)
    (att : ℕ → AttemptOutcome T) (e : ℕ → ApiClientError)
    (hatt : ∀ i, att i = .err (e i)) (hret : ∀ i, (e i).retryable = true) :
    (executeWithRetry r att (fun _ => false) false).networkAttempts = r + 1 ∧
    (executeWithRetry r att (fun _ => false) false).result =
      .envelope (.fail (e r).toApiError (e r).status) := by
  unfold executeWithRetry
  rw [runRetry_allFail att e hatt hret r 0]
  simp

/-- An attempt oracle on which every attempt yields a 503 server error. -/
def failing503 : ℕ → AttemptOutcome ℕ :=
  fun _ => .err (ServerError.mk "Service Unavailable" 503)

/-- C4 witness: with 2 retries against a permanently failing 503
endpoint, exactly 3 attempts are made and the final envelope carries the
503 server error. -/
theorem executeWithRetry_exhaustion_witness :
    (executeWithRetry 2 failing503 (fun _ => false) false).networkAttempts = 3 ∧
    (executeWithRetry 2 failing503 (fun _ => false) false).result =
      .envelope (.fail (ServerError.mk "Service Unavailable" 503).toApiError 503) :=
  executeWithRetry_exhaustion 2 failing503
    (fun _ => ServerError.mk "Service Unavailable" 503)
    (fun _ => rfl) (fun _ => rfl)

/-- C5: if the first attempt throws a non-retryable error (and the signal
is not set at iteration 0), the orchestrator makes exactly one network
attempt, performs no backoff sleep, and returns the failure envelope —
for every configured`maxRetries`. -/
theorem executeWithRetry_nonretryable_single_attempt {T : Type} (r : ℕ)
    (att : ℕ → AttemptOutcome T) (ab : ℕ → Bool) (e : ApiClientError)
    (hab : ab 0 = false) (hatt : att 0 = .err e) (hret : e.retryable = false) :
    (executeWithRetry r att ab false).networkAttempts = 1 ∧
    (executeWithRetry r att ab false).sleepCount = 0 ∧
    (executeWithRetry r att ab false).result =
      .envelope (.fail e.toApiError e.status) := by
  unfold executeWithRetry
  rw [runRetry.eq_def]
  cases r with
  | zero => simp [hab, hatt, exhaustTrace]
  | succ r => simp [hab, hatt, hret, exhaustTrace]

/-- An attempt oracle on which every attempt yields a 400 client error. -/
def badRequestAttempt : ℕ → AttemptOutcome ℕ :=
  fun _ => .err (ClientError.mk "Invalid input" 400)

/-- C5 witness: a 400 client-error attempt with 3 configured retries
still makes exactly one attempt, no sleep, and fails. -/
theorem executeWithRetry_nonretryable_single_attempt_witness :
    (executeWithRetry 3 badRequestAttempt (fun _ => false) false).networkAttempts = 1 ∧
    (executeWithRetry 3 badRequestAttempt (fun _ => false) false).sleepCount = 0 ∧
    (executeWithRetry 3 badRequestAttempt (fun _ => false) false).result =
      .envelope (.fail (ClientError.mk "Invalid input" 400).toApiError 400) :=
  executeWithRetry_nonretryable_single_attempt 3 badRequestAttempt (fun _ => false)
    (ClientError.mk "Invalid input" 400) rfl rfl rfl

/-- Helper: once the cancellation signal is set (monotonically, from some
iteration `i` on), a run of the loop never makes more attempts than `i`
minus its starting iteration. -/
theorem runRetry_attempts_bounded {T : Type} (att : ℕ → AttemptOutcome T)
    (ab : ℕ → Bool) (oet : Bool)
    (hmono : ∀ j k, j ≤ k → ab j = true → ab k = true) (i : ℕ)
    (hi : ab i = true) :
    ∀ rem idx, (runRetry att ab oet idx rem).networkAttempts ≤ i - idx := by
  intro rem
  induction rem with
  | zero =>
      intro idx
      rw [runRetry.eq_def]
      by_cases hab : ab idx = true
      · simp [hab, exhaustTrace]
      · have hlt : idx < i := by
          by_contra hle
          exact hab (hmono i idx (by omega) hi)
        cases hatt : att idx with
        | ok d s h =>
            simp [hab, hatt]
            omega
        | err e' =>
            simp [hab, hatt, exhaustTrace]
            omega
  | succ r ih =>
      intro idx
      rw [runRetry.eq_def]
      by_cases hab : ab idx = true
      · simp [hab, exhaustTrace]
      · have hlt : idx < i := by
          by_contra hle
          exact hab (hmono i idx (by omega) hi)
        cases hatt : att idx with
        | ok d s h =>
            simp [hab, hatt]
            omega
        | err e' =>
            by_cases hr : e'.retryable = true
            · have htail := ih (idx + 1)
              simp [hab, hatt, hr]
              omega
            · simp [hab, hatt, hr, exhaustTrace]
              omega

/-- C8: (a) at any loop iteration at which the caller's signal is already
set, the loop makes no network attempt and settles at once with the
`CANCELLED` error, (b) that error's retryable flag is false, and (c) when
the signal is set monotonically from iteration `i` on, a whole
`executeWithRetry` run makes at most `i` network attempts regardless of
the retry budget. -/
theorem cancellation_short_circuits {T : Type} (att : ℕ → AttemptOutcome T)
    (ab : ℕ → Bool) (idx rem r i : ℕ) (hidx : ab idx = true)
    (hmono : ∀ j k, j ≤ k → ab j = true → ab k = true) (hi : ab i = true) :
    runRetry att ab false idx rem =
      { result := .envelope (.fail cancelledError.toApiError cancelledError.status),
        networkAttempts := 0, sleepCount := 0,
        onErrorCalls := [cancelledError.toApiError] } ∧
    cancelledError.toApiError.retryable = false ∧
    (executeWithRetry r att ab false).networkAttempts ≤ i := by
  refine ⟨?_, rfl, ?_⟩
  · rw [runRetry.eq_def]
    simp [hidx, exhaustTrace]
  · have hb := runRetry_attempts_bounded att ab false hmono i hi r 0
    unfold executeWithRetry
    simpa using hb

/-- An attempt oracle that always fails with a retryable network error. -/
def offlineAttempt : ℕ → AttemptOutcome ℕ :=
  fun _ => .err (NetworkError.mk "offline")

/-- C8 witness: with the signal aborted from the start, a run with 3
configured retries makes 0 network attempts and settles cancelled. -/
theorem cancellation_short_circuits_witness :
    runRetry offlineAttempt (fun _ => true) false 0 2 =
      { result := .envelope (.fail cancelledError.toApiError cancelledError.status),
        networkAttempts := 0, sleepCount := 0,
        onErrorCalls := [cancelledError.toApiError] } ∧
    cancelledError.toApiError.retryable = false ∧
    (executeWithRetry 3 offlineAttempt (fun _ => true) false).networkAttempts ≤ 0 :=
  cancellation_short_circuits offlineAttempt (fun _ => true) 0 2 3 0 rfl
    (fun _ _ _ _ => rfl) rfl

/-- Helper: every run of the retry loop either returns a success envelope
without touching the error interceptor, or reaches exhaustion, where the
interceptor receives exactly one error — and the settled outcome is the
failure envelope carrying that same error when the interceptor is benign,
but an escaped rejection when the interceptor itself throws. -/
theorem runRetry_onError_shape {T : Type} (att : ℕ → AttemptOutcome T)
    (ab : ℕ → Bool) (oet : Bool) :
    ∀ rem idx,
      ((∃ d s h, (runRetry att ab oet idx rem).result = .envelope (.ok d s h)) ∧
        (runRetry att ab oet idx rem).onErrorCalls = []) ∨
      (∃ err stc, (runRetry att ab oet idx rem).onErrorCalls = [err] ∧
        (runRetry att ab oet idx rem).result =
          (if oet then .fault else .envelope (.fail err stc))) := by
  intro rem
  induction rem with
  | zero =>
      intro idx
      rw [runRetry.eq_def]
      by_cases hab : ab idx = true
      · right
        exact ⟨cancelledError.toApiError, cancelledError.status,
          by simp [hab, exhaustTrace], by simp [hab, exhaustTrace]⟩
      · cases hatt : att idx with
        | ok d s h =>
            left
            exact ⟨⟨d, s, h, by simp [hab, hatt]⟩, by simp [hab, hatt]⟩
        | err e' =>
            right
            exact ⟨e'.toApiError, e'.status,
              by simp [hab, hatt, exhaustTrace], by simp [hab, hatt, exhaustTrace]⟩
  | succ r ih =>
      intro idx
      rw [runRetry.eq_def]
      by_cases hab : ab idx = true
      · right
        exact ⟨cancelledError.toApiError, cancelledError.status,
          by simp [hab, exhaustTrace], by simp [hab, exhaustTrace]⟩
      · cases hatt : att idx with
        | ok d s h =>
            left
            exact ⟨⟨d, s, h, by simp [hab, hatt]⟩, by simp [hab, hatt]⟩
        | err e' =>
            by_cases hr : e'.retryable = true
            · rcases ih (idx + 1) with ⟨⟨d, s, h, hres⟩, hcalls⟩ | ⟨err, stc, hcalls, hres⟩
              · left
                exact ⟨⟨d, s, h, by simp [hab, hatt, hr, hres]⟩,
                  by simp [hab, hatt, hr, hcalls]⟩
              · right
                exact ⟨err, stc, by simp [hab, hatt, hr, hcalls],
                  by simp [hab, hatt, hr, hres]⟩
            · right
              exact ⟨e'.toApiError, e'.status,
                by simp [hab, hatt, hr, exhaustTrace], by simp [hab, hatt, hr, exhaustTrace]⟩

/-- C3 (amended): per call the error interceptor runs exactly once at
exhaustion, with the final classified error (success runs never invoke
it); when the interceptor is benign the caller receives the failure
envelope carrying that error, but when the interceptor itself throws,
its rejection escapes the call instead of the failure envelope — the
code does not shield the original error from interceptor failures. -/
theorem onError_invoked_once {T : Type} (r : ℕ) (att : ℕ → AttemptOutcome T)
    (ab : ℕ → Bool) (oet : Bool) :
    ((∃ d s h, (executeWithRetry r att ab oet).result = .envelope (.ok d s h)) ∧
      (executeWithRetry r att ab oet).onErrorCalls = []) ∨
    (∃ err stc, (executeWithRetry r att ab oet).onErrorCalls = [err] ∧
      (executeWithRetry r att ab oet).result =
        (if oet then .fault else .envelope (.fail err stc))) :=
  runRetry_onError_shape att ab oet r 0

/-- An attempt oracle failing once with a non-retryable 422 error. -/
def unprocessableAttempt : ℕ → AttemptOutcome ℕ :=
  fun _ => .err (ClientError.mk "Unprocessable" 422)

/-- C3 counterexample: with a throwing error interceptor, a call that
exhausts (here: a single non-retryable failure with zero retries) settles
as an escaped rejection, not as a failure envelope — even though the
interceptor did receive the original error. The interceptor's failure
masks the original error towards the caller. -/
theorem onError_throw_masks_failure :
    (executeWithRetry 0 unprocessableAttempt (fun _ => false) true).result = .fault ∧
    (executeWithRetry 0 unprocessableAttempt (fun _ => false) true).onErrorCalls =
      [(ClientError.mk "Unprocessable" 422).toApiError] := by
  constructor
  · rfl
  · rfl

/-- Helper: a GET call with caching enabled, on a key with no cache entry
and no pending entry, whose network promise settles with a success
envelope, stores the payload under the key with expiry `settleNow + ttl`,
leaves no pending entry behind, and increments the miss counter. -/
theorem requestGET_fresh_success {α : Type} (st : ClientState α)
    (now1 settle1 : ℤ) (key : String) (ttl : ℤ) (d : Option α) (s : ℕ)
    (h : HeadersModel) (hc : st.cache key = none) (hp : st.pending key = none) :
    ((requestGET st now1 settle1 key true ttl (.envelope (.ok d s h))).1).cache key =
      some { data := d, expiry := settle1 + ttl } ∧
    ((requestGET st now1 settle1 key true ttl (.envelope (.ok d s h))).1).pending key = none ∧
    ((requestGET st now1 settle1 key true ttl (.envelope (.ok d s h))).1).cacheMisses =
      st.cacheMisses + 1 := by
  have hget : RequestCache.get st.cache now1 key = (st.cache, none) := by
    unfold RequestCache.get
    rw [hc]
  unfold requestGET requestGETNetwork
  simp [hget, hp, RequestCache.set]

/-- C7: for every GET call on a key with no pre-existing pending entry
(so the call itself registers one), the pending map holds no entry under
that key once the call settles — whatever the outcome: success envelope,
failure envelope, or an escaped rejection — because the deletion sits in
the `finally` block. -/
theorem pendingRequests_cleared_on_settlement {α : Type} (st : ClientState α)
    (now settleNow : ℤ) (key : String) (enabled : Bool) (ttl : ℤ)
    (outcome : CallOutcome (Option α)) (hreg : st.pending key = none) :
    ((requestGET st now settleNow key enabled ttl outcome).1).pending key = none := by
  cases enabled with
  | false =>
      unfold requestGET requestGETNetwork
      simp [hreg]
  | true =>
      unfold requestGET
      rcases hjoin : (RequestCache.get st.cache now key).2.join with _ | v
      · simp only [hjoin]
        unfold requestGETNetwork
        simp [hreg]
      · simp only [hjoin]
        simpa using hreg

/-- A fresh client: empty cache, empty pending map, zeroed counters. -/
def emptyClientState : ClientState ℕ :=
  { cache := fun _ => none, pending := fun _ => none,
    cacheHits := 0, cacheMisses := 0 }

/-- C7 witness: a call on a fresh client whose promise rejects (a thrown
fault) still leaves no pending entry under its key. -/
theorem pendingRequests_cleared_on_settlement_witness :
    ((requestGET emptyClientState 0 5 "GET:/users" true 1000 .fault).1).pending "GET:/users" = none :=
  pendingRequests_cleared_on_settlement emptyClientState 0 5 "GET:/users" true 1000 .fault rfl

/-- C10: when a GET call caches a successful payload whose original
network response had an arbitrary status `s` and arbitrary headers `h`,
a later call that hits the cache (within the TTL) returns a synthesized
envelope with statusCode 200 and a freshly constructed empty headers
object — the original status and headers are not stored and cannot be
reproduced. -/
theorem cache_hit_statusCode_200_empty_headers {α : Type} (st : ClientState α)
    (now1 settle1 now2 settle2 : ℤ) (key : String) (ttl : ℤ) (v : α) (s : ℕ)
    (h : HeadersModel) (outcome2 : CallOutcome (Option α))
    (hc : st.cache key = none) (hp : st.pending key = none)
    (hfresh : ¬ now2 > settle1 + ttl) :
    (requestGET ((requestGET st now1 settle1 key true ttl
      (.envelope (.ok (some v) s h))).1) now2 settle2 key true ttl outcome2).2 =
      .envelope (.ok (some v) 200 []) := by
  obtain ⟨hcache, hpend, -⟩ :=
    requestGET_fresh_success st now1 settle1 key ttl (some v) s h hc hp
  set st1 := (requestGET st now1 settle1 key true ttl
    (.envelope (.ok (some v) s h))).1 with hst1
  have hget2 : RequestCache.get st1.cache now2 key = (st1.cache, some (some v)) := by
    unfold RequestCache.get
    rw [hcache]
    simp only
    rw [if_neg hfresh]
  show (requestGET st1 now2 settle2 key true ttl outcome2).2 = _
  unfold requestGET
  rw [hget2]
  simp

/-- C10 witness: a payload cached from a 201 response carrying a header
is later served with statusCode 200 and empty headers. -/
theorem cache_hit_statusCode_200_empty_headers_witness :
    (requestGET ((requestGET emptyClientState 0 1 "GET:/users/1" true 30000
      (.envelope (.ok (some 42) 201 [("x-request-id", "abc")]))).1)
      2 3 "GET:/users/1" true 30000 .fault).2 =
      .envelope (.ok (some 42) 200 []) :=
  cache_hit_statusCode_200_empty_headers emptyClientState 0 1 2 3 "GET:/users/1"
    30000 42 201 [("x-request-id", "abc")] .fault rfl rfl (by decide)

/-- Helper: a GET call with caching enabled whose cache consultation
comes back `null` (a miss, an expired entry, or a stored `null` payload)
and whose key has no pending entry proceeds to the network — the caller
receives the network outcome — and increments the cache-miss counter. -/
theorem requestGET_miss_result {α : Type} (st : ClientState α)
    (now settleNow : ℤ) (key : String) (ttl : ℤ)
    (outcome : CallOutcome (Option α))
    (hjoin : ((RequestCache.get st.cache now key).2).join = none)
    (hp : st.pending key = none) :
    (requestGET st now settleNow key true ttl outcome).2 = outcome ∧
    (requestGET st now settleNow key true ttl outcome).1.cacheMisses =
      st.cacheMisses + 1 := by
  unfold requestGET
  simp only [hjoin]
  unfold requestGETNetwork
  rcases outcome with r | _
  · rcases r with ⟨d2, s2, h2⟩ | ⟨e2, s2⟩ <;> simp [hp]
  · simp [hp]

/-- C9: a GET call whose successful network payload is JSON `null` writes
the `null` into the cache, yet every later identical call finds
`cache.get` returning `null`, which the `cached !== null` guard treats as
a miss: the miss counter is incremented and the call proceeds to the
network, receiving the new network outcome — the cached `null` is never
served. -/
theorem null_payload_cached_but_never_served {α : Type} (st : ClientState α)
    (now1 settle1 now2 settle2 : ℤ) (key : String) (ttl : ℤ) (s : ℕ)
    (h : HeadersModel) (outcome2 : CallOutcome (Option α))
    (hc : st.cache key = none) (hp : st.pending key = none) :
    ((requestGET st now1 settle1 key true ttl
      (.envelope (.ok (none : Option α) s h))).1).cache key =
      some { data := none, expiry := settle1 + ttl } ∧
    (requestGET ((requestGET st now1 settle1 key true ttl
      (.envelope (.ok (none : Option α) s h))).1)
      now2 settle2 key true ttl outcome2).2 = outcome2 ∧
    (requestGET ((requestGET st now1 settle1 key true ttl
      (.envelope (.ok (none : Option α) s h))).1)
      now2 settle2 key true ttl outcome2).1.cacheMisses =
      ((requestGET st now1 settle1 key true ttl
        (.envelope (.ok (none : Option α) s h))).1).cacheMisses + 1 := by
  obtain ⟨hcache, hpend, -⟩ :=
    requestGET_fresh_success st now1 settle1 key ttl none s h hc hp
  set st1 := (requestGET st now1 settle1 key true ttl
    (.envelope (.ok (none : Option α) s h))).1 with hst1
  have hjoin : ((RequestCache.get st1.cache now2 key).2).join = none := by
    unfold RequestCache.get
    rw [hcache]
    simp only
    by_cases hexp : now2 > settle1 + ttl
    · rw [if_pos hexp]
      simp [Option.join]
    · rw [if_neg hexp]
      simp [Option.join]
  obtain ⟨hres, hmiss⟩ :=
    requestGET_miss_result st1 now2 settle2 key ttl outcome2 hjoin hpend
  exact ⟨hcache, hres, hmiss⟩

/-- C9 witness: on a fresh client, a call caching payload `null` leaves
the entry in the cache, and an identical call one millisecond later
misses, proceeds to the network, and gets the new outcome. -/
theorem null_payload_cached_but_never_served_witness :
    ((requestGET emptyClientState 0 1 "GET:/items" true 30000
      (.envelope (.ok (none : Option ℕ) 200 []))).1).cache "GET:/items" =
      some { data := none, expiry := 1 + 30000 } ∧
    (requestGET ((requestGET emptyClientState 0 1 "GET:/items" true 30000
      (.envelope (.ok (none : Option ℕ) 200 []))).1)
      2 3 "GET:/items" true 30000 (.envelope (.fail (NetworkError.mk "offline").toApiError 0))).2 =
      .envelope (.fail (NetworkError.mk "offline").toApiError 0) ∧
    (requestGET ((requestGET emptyClientState 0 1 "GET:/items" true 30000
      (.envelope (.ok (none : Option ℕ) 200 []))).1)
      2 3 "GET:/items" true 30000 (.envelope (.fail (NetworkError.mk "offline").toApiError 0))).1.cacheMisses =
      ((requestGET emptyClientState 0 1 "GET:/items" true 30000
        (.envelope (.ok (none : Option ℕ) 200 []))).1).cacheMisses + 1 :=
  null_payload_cached_but_never_served emptyClientState 0 1 2 3 "GET:/items"
    30000 200 [] (.envelope (.fail (NetworkError.mk "offline").toApiError 0)) rfl rfl
